import Mathlib

/-
  Verification of MMM-SunGrow (node_helper.js) against its natural-language
  specification.  The definitions below are a shallow embedding of the
  relevant parts of src/node_helper.js:
  - JavaScript numbers are modelled as rationals (ℚ);
  - `parseFloat(x) || 0` on a possibly-missing / possibly-unparseable vendor
    string is modelled by an `Option ℚ` input (none = missing or NaN) together
    with `parseFloatOrZero`;
  - JS objects become structures, missing fields become `Option`.
-/

namespace SunGrow

/-- The four power-flow nodes of the normalized model. -/
inductive NodeId
  | PV
  | STORAGE
  | LOAD
  | GRID
deriving DecidableEq, Repr

/-- A directed power-flow edge.  The JS objects use fields "from" / "to";
`from` is reserved in Lean, so the fields are named `src` / `dst`. -/
structure DirectedEdge where
  src : NodeId
  dst : NodeId
deriving DecidableEq, Repr

/-- `parseFloat(x) || 0`: a missing or unparseable value (NaN) is falsy and
becomes 0; a parsed number passes through (0 maps to 0 either way). -/
def parseFloatOrZero (o : Option ℚ) : ℚ := o.getD 0

/-- The `device_point` object returned by /openapi/getDeviceRealTimeData for
the current-power request (node_helper.js lines 300-317).  Field pXXXXX holds
the vendor value for point id XXXXX; `none` = missing or unparseable. -/
structure DevicePoint where
  p13126 : Option ℚ -- battery charging power
  p13150 : Option ℚ -- battery discharging power
  p13141 : Option ℚ -- battery SoC (fraction)
  p13119 : Option ℚ -- load power
  p13011 : Option ℚ -- PV active power
  p13121 : Option ℚ -- feed-in power
  p13149 : Option ℚ -- purchased power
deriving DecidableEq, Repr

/-- A node of `siteCurrentPowerFlow` other than STORAGE. -/
structure FlowNode where
  currentPower : ℚ
  status : String
deriving DecidableEq, Repr

/-- The STORAGE node of `siteCurrentPowerFlow` (carries `chargeLevel`). -/
structure StorageNode where
  currentPower : ℚ
  status : String
  chargeLevel : ℚ
deriving DecidableEq, Repr

/-- The `siteCurrentPowerFlow` object built by fetchCurrentPowerData. -/
structure SiteCurrentPowerFlow where
  STORAGE : StorageNode
  PV : FlowNode
  LOAD : FlowNode
  GRID : FlowNode
  connections : List DirectedEdge
  unit : String
deriving DecidableEq, Repr

/-- The payload of the CURRENTPOWER_DATA_RECEIVED notification. -/
structure CurrentPowerPayload where
  siteCurrentPowerFlow : SiteCurrentPowerFlow
deriving DecidableEq, Repr

/-- The pure transformation performed by fetchCurrentPowerData on the
device point (node_helper.js lines 306-365): parse the seven point values
(missing → 0), infer the directed edges with the charging-over-discharging
precedence, compute the non-negative storage and grid magnitudes, and build
`siteCurrentPowerFlow`.  The imperative `connections.push` sequence is
rendered as the list append of the three conditional segments, in the same
order as the source. -/
def currentPowerTransform (dp : DevicePoint) : CurrentPowerPayload :=
  let batteryChargingPower := parseFloatOrZero dp.p13126
  let batteryDischargingPower := parseFloatOrZero dp.p13150
  let batterySoCFrac := parseFloatOrZero dp.p13141
  let batterySoCPercent := batterySoCFrac * 100
  let loadPowerW := parseFloatOrZero dp.p13119
  let pvPowerW := parseFloatOrZero dp.p13011
  let feedInPower := parseFloatOrZero dp.p13121
  let purchasedPower := parseFloatOrZero dp.p13149
  let netGridPower := feedInPower - purchasedPower
  let storageConnections : List DirectedEdge :=
    if batteryChargingPower > 0 then [⟨NodeId.PV, NodeId.STORAGE⟩]
    else if batteryDischargingPower > 0 then [⟨NodeId.STORAGE, NodeId.LOAD⟩]
    else []
  let batteryPowerW : ℚ :=
    if batteryChargingPower > 0 then batteryChargingPower
    else if batteryDischargingPower > 0 then batteryDischargingPower
    else 0
  let pvConnections : List DirectedEdge :=
    if pvPowerW > 0 then [⟨NodeId.PV, NodeId.LOAD⟩] else []
  let gridConnections : List DirectedEdge :=
    if netGridPower > 0 then [⟨NodeId.LOAD, NodeId.GRID⟩]
    else if netGridPower < 0 then [⟨NodeId.GRID, NodeId.LOAD⟩]
    else []
  let gridPowerW : ℚ :=
    if netGridPower > 0 then netGridPower
    else if netGridPower < 0 then -netGridPower
    else 0
  { siteCurrentPowerFlow :=
    { STORAGE := ⟨batteryPowerW, "Active", batterySoCPercent⟩,
      PV := ⟨pvPowerW, "Active"⟩,
      LOAD := ⟨loadPowerW, "Active"⟩,
      GRID := ⟨gridPowerW, "Active"⟩,
      connections := storageConnections ++ pvConnections ++ gridConnections,
      unit := "W" } }

/-- Edge list written from the words of spec section 4.3 (steps 2-4): storage
edge by charging/discharging precedence, then the PV edge, then the net-grid
edge. -/
def specFlowEdges (charging discharging pv feedIn purchased : ℚ) : List DirectedEdge :=
  (if charging > 0 then [⟨NodeId.PV, NodeId.STORAGE⟩]
   else if discharging > 0 then [⟨NodeId.STORAGE, NodeId.LOAD⟩]
   else [])
  ++ (if pv > 0 then [⟨NodeId.PV, NodeId.LOAD⟩] else [])
  ++ (if feedIn - purchased > 0 then [⟨NodeId.LOAD, NodeId.GRID⟩]
      else if feedIn - purchased < 0 then [⟨NodeId.GRID, NodeId.LOAD⟩]
      else [])

/-- Storage magnitude written from the words of spec section 4.3 step 2. -/
def specStorageMagnitude (charging discharging : ℚ) : ℚ :=
  if charging > 0 then charging
  else if discharging > 0 then discharging
  else 0

/-- Grid magnitude written from the words of spec section 4.3 step 4
(net > 0 → net, net < 0 → sign flipped, net = 0 → 0). -/
def specGridMagnitude (feedIn purchased : ℚ) : ℚ :=
  if feedIn - purchased > 0 then feedIn - purchased
  else if feedIn - purchased < 0 then purchased - feedIn
  else 0

/-- The concrete device point of the spec's worked example:
chargingW=150, dischargingW=0, pvW=500, feedIn=200, purchased=0. -/
def exampleDevicePoint : DevicePoint :=
  { p13126 := some 150, p13150 := some 0, p13141 := none, p13119 := none,
    p13011 := some 500, p13121 := some 200, p13149 := some 0 }

/-- C1: for every device-point input, the connections and the storage and grid
magnitudes produced by fetchCurrentPowerData equal the spec's edge-inference
algorithm (charging precedence, PV edge, signed net-grid edge); the worked
example (150, 0, 500, 200, 0) yields edges PV→STORAGE, PV→LOAD, LOAD→GRID with
storage magnitude 150 and grid magnitude 200; a missing or unparseable point
value is treated as 0. -/
theorem c1_edge_inference :
    (∀ dp : DevicePoint,
      (currentPowerTransform dp).siteCurrentPowerFlow.connections =
        specFlowEdges (parseFloatOrZero dp.p13126) (parseFloatOrZero dp.p13150)
          (parseFloatOrZero dp.p13011) (parseFloatOrZero dp.p13121)
          (parseFloatOrZero dp.p13149)
      ∧ (currentPowerTransform dp).siteCurrentPowerFlow.STORAGE.currentPower =
          specStorageMagnitude (parseFloatOrZero dp.p13126) (parseFloatOrZero dp.p13150)
      ∧ (currentPowerTransform dp).siteCurrentPowerFlow.GRID.currentPower =
          specGridMagnitude (parseFloatOrZero dp.p13121) (parseFloatOrZero dp.p13149))
    ∧ ((currentPowerTransform exampleDevicePoint).siteCurrentPowerFlow.connections =
        [⟨NodeId.PV, NodeId.STORAGE⟩, ⟨NodeId.PV, NodeId.LOAD⟩, ⟨NodeId.LOAD, NodeId.GRID⟩]
      ∧ (currentPowerTransform exampleDevicePoint).siteCurrentPowerFlow.STORAGE.currentPower = 150
      ∧ (currentPowerTransform exampleDevicePoint).siteCurrentPowerFlow.GRID.currentPower = 200)
    ∧ parseFloatOrZero none = 0 := by
  refine ⟨fun dp => ⟨rfl, rfl, ?_⟩, ⟨?_, ?_, ?_⟩, rfl⟩
  · simp only [currentPowerTransform, specGridMagnitude]
    split_ifs <;> simp
  · norm_num [currentPowerTransform, exampleDevicePoint, parseFloatOrZero]
  · norm_num [currentPowerTransform, exampleDevicePoint, parseFloatOrZero]
  · norm_num [currentPowerTransform, exampleDevicePoint, parseFloatOrZero]

/-- C10: for every device-point input, all four nodes of the emitted
siteCurrentPowerFlow carry the constant status label "Active"; the
Charging/Discharging/Idle/Unknown vocabulary is never produced. -/
theorem c10_status_always_active :
    ∀ dp : DevicePoint,
      (currentPowerTransform dp).siteCurrentPowerFlow.PV.status = "Active"
      ∧ (currentPowerTransform dp).siteCurrentPowerFlow.STORAGE.status = "Active"
      ∧ (currentPowerTransform dp).siteCurrentPowerFlow.LOAD.status = "Active"
      ∧ (currentPowerTransform dp).siteCurrentPowerFlow.GRID.status = "Active"
      ∧ (currentPowerTransform dp).siteCurrentPowerFlow.STORAGE.status ≠ "Charging"
      ∧ (currentPowerTransform dp).siteCurrentPowerFlow.STORAGE.status ≠ "Discharging"
      ∧ (currentPowerTransform dp).siteCurrentPowerFlow.STORAGE.status ≠ "Idle" := by
  intro dp
  refine ⟨rfl, rfl, rfl, rfl, ?_, ?_, ?_⟩ <;> simp only [currentPowerTransform] <;> decide

/-- A device point whose vendor PV value is negative: parseFloat passes the
negative number through unchanged. -/
def negativePvDevicePoint : DevicePoint :=
  { p13126 := none, p13150 := none, p13141 := none, p13119 := none,
    p13011 := some (-5), p13121 := none, p13149 := none }

/-- C6 counterexample: on a raw input whose PV point value is the negative
number -5, the emitted PV node has currentPower = -5 < 0, so the claim that
the currentPower of each of the four nodes is non-negative for every raw
device-point input is false (the code never clamps the parsed PV and LOAD
values, and never clamps chargeLevel to [0,100]). -/
theorem c6_counterexample_negative_pv :
    (currentPowerTransform negativePvDevicePoint).siteCurrentPowerFlow.PV.currentPower < 0 := by
  norm_num [currentPowerTransform, negativePvDevicePoint, parseFloatOrZero]

/-- C6 (amended): the STORAGE and GRID magnitudes are non-negative for every
input; the PV and LOAD powers EQUAL the parsed raw point values — no
clamping — and are therefore negative whenever the vendor supplies negative
values; chargeLevel equals the raw state-of-charge fraction times 100 with
no clamping, so it lies in [0,100] exactly when the raw fraction lies in
[0,1]. -/
theorem c6_amended_nonneg_magnitudes :
    ∀ dp : DevicePoint,
      0 ≤ (currentPowerTransform dp).siteCurrentPowerFlow.STORAGE.currentPower
      ∧ 0 ≤ (currentPowerTransform dp).siteCurrentPowerFlow.GRID.currentPower
      ∧ (currentPowerTransform dp).siteCurrentPowerFlow.PV.currentPower =
          parseFloatOrZero dp.p13011
      ∧ (currentPowerTransform dp).siteCurrentPowerFlow.LOAD.currentPower =
          parseFloatOrZero dp.p13119
      ∧ (currentPowerTransform dp).siteCurrentPowerFlow.STORAGE.chargeLevel =
          parseFloatOrZero dp.p13141 * 100
      ∧ (parseFloatOrZero dp.p13011 < 0 →
          (currentPowerTransform dp).siteCurrentPowerFlow.PV.currentPower < 0)
      ∧ (parseFloatOrZero dp.p13119 < 0 →
          (currentPowerTransform dp).siteCurrentPowerFlow.LOAD.currentPower < 0)
      ∧ (0 ≤ parseFloatOrZero dp.p13141 → parseFloatOrZero dp.p13141 ≤ 1 →
          0 ≤ (currentPowerTransform dp).siteCurrentPowerFlow.STORAGE.chargeLevel
          ∧ (currentPowerTransform dp).siteCurrentPowerFlow.STORAGE.chargeLevel ≤ 100) := by
  intro dp
  refine ⟨?_, ?_, rfl, rfl, rfl, fun h => h, fun h => h, fun h0 h1 => ⟨?_, ?_⟩⟩
  · simp only [currentPowerTransform]
    split_ifs <;> linarith
  · simp only [currentPowerTransform]
    split_ifs <;> linarith
  · simp only [currentPowerTransform]
    nlinarith
  · simp only [currentPowerTransform]
    nlinarith

/-- A device point with negative vendor PV and LOAD values and an in-range
state-of-charge fraction, instantiating every hypothesis of the amended C6
theorem. -/
def c6WitnessDevicePoint : DevicePoint :=
  { p13126 := some 150, p13150 := some 0, p13141 := some (1/2), p13119 := some (-3),
    p13011 := some (-5), p13121 := some 200, p13149 := some 0 }

/-- Witness for the amended C6 theorem at a concrete input with negative
vendor PV and LOAD values: the pass-through makes both node powers negative,
and the in-range state-of-charge fraction keeps chargeLevel in [0,100]. -/
theorem c6_amended_nonneg_magnitudes_witness :
    (currentPowerTransform c6WitnessDevicePoint).siteCurrentPowerFlow.PV.currentPower < 0
    ∧ (currentPowerTransform c6WitnessDevicePoint).siteCurrentPowerFlow.LOAD.currentPower < 0
    ∧ 0 ≤ (currentPowerTransform c6WitnessDevicePoint).siteCurrentPowerFlow.STORAGE.chargeLevel
    ∧ (currentPowerTransform c6WitnessDevicePoint).siteCurrentPowerFlow.STORAGE.chargeLevel ≤ 100 := by
  have h := c6_amended_nonneg_magnitudes c6WitnessDevicePoint
  have h1 : parseFloatOrZero c6WitnessDevicePoint.p13011 < (0:ℚ) := by
    norm_num [c6WitnessDevicePoint, parseFloatOrZero]
  have h2 : parseFloatOrZero c6WitnessDevicePoint.p13119 < (0:ℚ) := by
    norm_num [c6WitnessDevicePoint, parseFloatOrZero]
  have h3 : (0:ℚ) ≤ parseFloatOrZero c6WitnessDevicePoint.p13141 := by
    norm_num [c6WitnessDevicePoint, parseFloatOrZero]
  have h4 : parseFloatOrZero c6WitnessDevicePoint.p13141 ≤ 1 := by
    norm_num [c6WitnessDevicePoint, parseFloatOrZero]
  exact ⟨h.2.2.2.2.2.1 h1, h.2.2.2.2.2.2.1 h2,
    (h.2.2.2.2.2.2.2 h3 h4).1, (h.2.2.2.2.2.2.2 h3 h4).2⟩

/-- One `{ value: ... }` entry of a meter. -/
structure MeterValue where
  value : ℚ
deriving DecidableEq, Repr

/-- One `{ type, values }` meter of the day-energy payload. -/
structure Meter where
  type : String
  values : List MeterValue
deriving DecidableEq, Repr

/-- The `energyDetails` object of the day-energy payload. -/
structure EnergyDetails where
  meters : List Meter
deriving DecidableEq, Repr

/-- The payload of the DAY_ENERGY_DATA_RECEIVED notification. -/
structure EnergyDetailsPayload where
  energyDetails : EnergyDetails
deriving DecidableEq, Repr

/-- The `device_point` object for the day-energy request
(node_helper.js lines 459-470). -/
structure DayDevicePoint where
  p13112 : Option ℚ -- daily PV production
  p13199 : Option ℚ -- daily load consumption
  p13122 : Option ℚ -- daily feed-in
  p13147 : Option ℚ -- daily purchased
  p13116 : Option ℚ -- daily self-consumption
deriving DecidableEq, Repr

/-- The pure transformation performed by fetchDayEnergyData on the device
point (node_helper.js lines 465-483): the five fixed meters, each defaulting
to 0 when the vendor field is missing or unparseable. -/
def dayEnergyTransform (dp : DayDevicePoint) : EnergyDetailsPayload :=
  let dailyProductionWh := parseFloatOrZero dp.p13112
  let dailyConsumptionWh := parseFloatOrZero dp.p13199
  let dailyFeedInWh := parseFloatOrZero dp.p13122
  let dailyPurchasedWh := parseFloatOrZero dp.p13147
  let dailySelfConsWh := parseFloatOrZero dp.p13116
  { energyDetails :=
    { meters :=
      [ ⟨"Production", [⟨dailyProductionWh⟩]⟩,
        ⟨"Consumption", [⟨dailyConsumptionWh⟩]⟩,
        ⟨"FeedIn", [⟨dailyFeedInWh⟩]⟩,
        ⟨"Purchased", [⟨dailyPurchasedWh⟩]⟩,
        ⟨"SelfConsumption", [⟨dailySelfConsWh⟩]⟩ ] } }

/-- C8: the day-energy mapping is total: for every raw device-point input the
output contains exactly the five named meters Production, Consumption, FeedIn,
Purchased, SelfConsumption, in that order, each carrying exactly one value; a
meter whose vendor field is absent or unparseable is present with value 0 —
in particular an input missing the Purchased field yields a Purchased meter
with value 0. -/
theorem c8_day_energy_total :
    ∀ dp : DayDevicePoint,
      ((dayEnergyTransform dp).energyDetails.meters.map Meter.type =
        ["Production", "Consumption", "FeedIn", "Purchased", "SelfConsumption"])
      ∧ (∀ m ∈ (dayEnergyTransform dp).energyDetails.meters, m.values.length = 1)
      ∧ ((dayEnergyTransform dp).energyDetails.meters =
          [ ⟨"Production", [⟨parseFloatOrZero dp.p13112⟩]⟩,
            ⟨"Consumption", [⟨parseFloatOrZero dp.p13199⟩]⟩,
            ⟨"FeedIn", [⟨parseFloatOrZero dp.p13122⟩]⟩,
            ⟨"Purchased", [⟨parseFloatOrZero dp.p13147⟩]⟩,
            ⟨"SelfConsumption", [⟨parseFloatOrZero dp.p13116⟩]⟩ ])
      ∧ (dp.p13112 = none →
          (dayEnergyTransform dp).energyDetails.meters.get? 0 =
            some ⟨"Production", [⟨0⟩]⟩)
      ∧ (dp.p13199 = none →
          (dayEnergyTransform dp).energyDetails.meters.get? 1 =
            some ⟨"Consumption", [⟨0⟩]⟩)
      ∧ (dp.p13122 = none →
          (dayEnergyTransform dp).energyDetails.meters.get? 2 =
            some ⟨"FeedIn", [⟨0⟩]⟩)
      ∧ (dp.p13147 = none →
          (dayEnergyTransform dp).energyDetails.meters.get? 3 =
            some ⟨"Purchased", [⟨0⟩]⟩)
      ∧ (dp.p13116 = none →
          (dayEnergyTransform dp).energyDetails.meters.get? 4 =
            some ⟨"SelfConsumption", [⟨0⟩]⟩) := by
  intro dp
  refine ⟨rfl, ?_, rfl, fun h => ?_, fun h => ?_, fun h => ?_, fun h => ?_, fun h => ?_⟩
  · intro m hm
    simp only [dayEnergyTransform, List.mem_cons, List.not_mem_nil, or_false] at hm
    rcases hm with h | h | h | h | h <;> subst h <;> rfl
  · simp [dayEnergyTransform, parseFloatOrZero, h]
  · simp [dayEnergyTransform, parseFloatOrZero, h]
  · simp [dayEnergyTransform, parseFloatOrZero, h]
  · simp [dayEnergyTransform, parseFloatOrZero, h]
  · simp [dayEnergyTransform, parseFloatOrZero, h]

/-- A day-energy device point with every vendor field missing. -/
def emptyDayDevicePoint : DayDevicePoint :=
  { p13112 := none, p13199 := none, p13122 := none, p13147 := none, p13116 := none }

/-- Witness for C8 at the concrete input missing all five fields: every meter
is present with value 0. -/
theorem c8_day_energy_total_witness :
    (dayEnergyTransform emptyDayDevicePoint).energyDetails.meters.get? 0 =
      some ⟨"Production", [⟨0⟩]⟩
    ∧ (dayEnergyTransform emptyDayDevicePoint).energyDetails.meters.get? 1 =
      some ⟨"Consumption", [⟨0⟩]⟩
    ∧ (dayEnergyTransform emptyDayDevicePoint).energyDetails.meters.get? 2 =
      some ⟨"FeedIn", [⟨0⟩]⟩
    ∧ (dayEnergyTransform emptyDayDevicePoint).energyDetails.meters.get? 3 =
      some ⟨"Purchased", [⟨0⟩]⟩
    ∧ (dayEnergyTransform emptyDayDevicePoint).energyDetails.meters.get? 4 =
      some ⟨"SelfConsumption", [⟨0⟩]⟩ :=
  ⟨(c8_day_energy_total emptyDayDevicePoint).2.2.2.1 rfl,
    (c8_day_energy_total emptyDayDevicePoint).2.2.2.2.1 rfl,
    (c8_day_energy_total emptyDayDevicePoint).2.2.2.2.2.1 rfl,
    (c8_day_energy_total emptyDayDevicePoint).2.2.2.2.2.2.1 rfl,
    (c8_day_energy_total emptyDayDevicePoint).2.2.2.2.2.2.2 rfl⟩

/-- The `result_data` record of /openapi/getPowerStationDetail
(node_helper.js line 213): `none` fields model absent (or, for the location,
empty — both are falsy) vendor values. -/
structure DetailsRecord where
  ps_location : Option String
  design_capacity : Option ℚ
deriving DecidableEq, Repr

/-- The `location` object of the details payload. -/
structure DetailsLocation where
  address : String
deriving DecidableEq, Repr

/-- The `details` object of the details payload. -/
structure Details where
  location : DetailsLocation
  peakPower : ℚ
deriving DecidableEq, Repr

/-- The payload of the DETAILS_DATA_RECEIVED notification. -/
structure DetailsPayload where
  details : Details
deriving DecidableEq, Repr

/-- The pure transformation performed by fetchDetailsData on the vendor
record (node_helper.js lines 213-221): `rd = json.result_data || {}`, address
defaults to the literal "No address", peak power is `design_capacity` (or 0)
divided by 1000. -/
def detailsTransform (result_data : Option DetailsRecord) : DetailsPayload :=
  let rd := result_data.getD ⟨none, none⟩
  { details :=
    { location := { address := rd.ps_location.getD "No address" },
      peakPower := rd.design_capacity.getD 0 / 1000 } }

/-- C9: the normalized station detail has peakPower = vendor capacity / 1000
(raw capacity 14050 yields 14.05, missing capacity yields 0) and address =
the vendor location string, defaulting to the literal "No address" when the
location is missing. -/
theorem c9_station_detail_mapping :
    (∀ loc cap, detailsTransform (some ⟨some loc, some cap⟩) =
      ⟨⟨⟨loc⟩, cap / 1000⟩⟩)
    ∧ (detailsTransform (some ⟨none, some 14050⟩)).details.peakPower = 14.05
    ∧ (detailsTransform (some ⟨some "x", none⟩)).details.peakPower = 0
    ∧ (detailsTransform none).details.peakPower = 0
    ∧ (detailsTransform (some ⟨none, some 14050⟩)).details.location.address = "No address"
    ∧ (detailsTransform none).details.location.address = "No address" := by
  refine ⟨fun loc cap => rfl, ?_, ?_, ?_, rfl, rfl⟩ <;>
    norm_num [detailsTransform]

/-- The module configuration received via SUN_GROW_CONFIG.  `none` models a
field that is absent or the empty string (both are falsy under the JS checks
`!this.config.userName` etc.). -/
structure Config where
  userName : Option String
  userPassword : Option String
  portalUrl : Option String
  appKey : Option String
  secretKey : Option String
  plantSN : Option String
  plantId : Option String
deriving DecidableEq, Repr

/-- The mutable node_helper state (start(): config, token, loginInProgress). -/
structure HelperState where
  config : Option Config
  token : Option String
  loginInProgress : Bool
deriving DecidableEq, Repr

/-- Payload of an outbound socket notification. -/
inductive NotifyPayload
  | errorMsg (message : String)
  | detailsData (p : DetailsPayload)
  | currentPowerData (p : CurrentPowerPayload)
  | dayEnergyData (p : EnergyDetailsPayload)
  | overviewData
deriving DecidableEq, Repr

/-- An observable effect of one handler run: a login network call, a data
fetch network call, or an outbound socket notification. -/
inductive Effect
  | loginCall
  | fetchCall (endpoint : String)
  | notify (name : String) (payload : NotifyPayload)
deriving DecidableEq, Repr

/-- Is this effect the error notification SUN_GROW_ERROR? -/
def Effect.isErrorNotify : Effect → Bool
  | .notify n _ => n = "SUN_GROW_ERROR"
  | _ => false

/-- Is this effect a non-error (success) notification? -/
def Effect.isSuccessNotify : Effect → Bool
  | .notify n _ => n ≠ "SUN_GROW_ERROR"
  | _ => false

/-- Is this effect a network call (login or fetch)? -/
def Effect.isNetworkCall : Effect → Bool
  | .loginCall => true
  | .fetchCall _ => true
  | _ => false

/-- Number of error notifications in an effect list. -/
def errCount (effs : List Effect) : Nat := effs.countP Effect.isErrorNotify

/-- Number of success notifications in an effect list. -/
def succCount (effs : List Effect) : Nat := effs.countP Effect.isSuccessNotify

/-- The outcome of one vendor HTTP POST, as observed by the code: either the
fetch promise rejects (transport error) or a response arrives with an HTTP
status and a parsed JSON body `{result_code, result_msg, result_data}`. -/
inductive ApiResponse (α : Type)
  | transportError (message : String)
  | http (status : Nat) (result_code : String) (result_msg : Option String)
      (result_data : Option α)
deriving DecidableEq, Repr

/-- `res.ok`: HTTP status in the 200-299 range. -/
def resOk (status : Nat) : Bool := decide (200 ≤ status ∧ status < 300)

/-- The `result_data` of a successful login; the token field itself may be
absent. -/
structure LoginData where
  token : Option String
deriving DecidableEq, Repr

/-- The envelope of /openapi/getDeviceRealTimeData:
`device_point` models the chain `result_data.device_point_list?.[0]?.device_point`
(none = list absent or empty or entry without device_point). -/
structure RealtimeData (pt : Type) where
  device_point : Option pt
deriving DecidableEq, Repr

/-- loginToISolarCloud (node_helper.js lines 107-157), as a function of the
current state and the vendor login response: config checks (throwing a
ConfigError message without a network call), then the POST, then the HTTP-ok
check, the `result_code !== "1"` check and the token extraction.  All thrown
errors are caught in the function itself and reported as one SUN_GROW_ERROR
notification; the token is only written on the success path (reading `.token`
of an absent `result_data` throws a TypeError first). -/
def loginToISolarCloud (st : HelperState) (resp : ApiResponse LoginData) :
    HelperState × List Effect :=
  match st.config with
  | none => (st, [.notify "SUN_GROW_ERROR"
      (.errorMsg "No config found. Did you send SUN_GROW_CONFIG?")])
  | some cfg =>
    if cfg.userName.isNone || cfg.userPassword.isNone then
      (st, [.notify "SUN_GROW_ERROR"
        (.errorMsg "No user/password provided in config for iSolarCloud login.")])
    else if cfg.portalUrl.isNone then
      (st, [.notify "SUN_GROW_ERROR" (.errorMsg "No portalUrl specified in config.")])
    else
      match resp with
      | .transportError msg =>
        (st, [.loginCall, .notify "SUN_GROW_ERROR" (.errorMsg msg)])
      | .http status result_code result_msg result_data =>
        if !resOk status then
          (st, [.loginCall, .notify "SUN_GROW_ERROR"
            (.errorMsg ("Login HTTP error! status: " ++ toString status))])
        else if result_code ≠ "1" then
          (st, [.loginCall, .notify "SUN_GROW_ERROR"
            (.errorMsg ("Login error: " ++ result_msg.getD "Unknown error"))])
        else
          match result_data with
          | none =>
            -- TypeError reading .token of undefined, caught by the catch block
            (st, [.loginCall, .notify "SUN_GROW_ERROR"
              (.errorMsg "Cannot read properties of undefined")])
          | some ld => ({st with token := ld.token}, [.loginCall])

/-- ensureLogin (node_helper.js lines 77-100) in the sequential single-caller
semantics used by one request cycle: an already-cached token returns
immediately; otherwise the flag is set, loginToISolarCloud runs, and the
finally clause clears the flag.  (The `loginInProgress` branch cooperatively
waits for the other task and then returns without effects; the concurrent
interleaving semantics is modelled separately below.) -/
def ensureLogin (st : HelperState) (resp : ApiResponse LoginData) :
    HelperState × List Effect :=
  if st.token.isSome then (st, [])
  else if st.loginInProgress then (st, [])
  else
    let st1 := {st with loginInProgress := true}
    let r := loginToISolarCloud st1 resp
    ({r.1 with loginInProgress := false}, r.2)

/-- fetchDetailsData (node_helper.js lines 165-232): token guard, plantSN
guard (read outside the try block: with a set token but absent config the JS
would throw an uncaught TypeError — modelled as no effects; unreachable in
well-formed states), the POST, then 401 → clear token and return silently,
other non-ok → error, result_code ≠ "1" → error, else the success
notification with the transformed payload. -/
def fetchDetailsData (st : HelperState) (resp : ApiResponse DetailsRecord) :
    HelperState × List Effect :=
  if st.token.isNone then
    (st, [.notify "SUN_GROW_ERROR" (.errorMsg "No token available.")])
  else
    match st.config with
    | none => (st, [])
    | some cfg =>
      if cfg.plantSN.isNone then
        (st, [.notify "SUN_GROW_ERROR" (.errorMsg "No sn in config.")])
      else
        match resp with
        | .transportError msg =>
          (st, [.fetchCall "getPowerStationDetail",
            .notify "SUN_GROW_ERROR" (.errorMsg msg)])
        | .http status result_code result_msg result_data =>
          if !resOk status then
            if status = 401 then
              ({st with token := none}, [.fetchCall "getPowerStationDetail"])
            else
              (st, [.fetchCall "getPowerStationDetail",
                .notify "SUN_GROW_ERROR"
                  (.errorMsg ("HTTP error! status: " ++ toString status))])
          else if result_code ≠ "1" then
            (st, [.fetchCall "getPowerStationDetail",
              .notify "SUN_GROW_ERROR"
                (.errorMsg ("getPowerStationDetail error: " ++ result_msg.getD ""))])
          else
            (st, [.fetchCall "getPowerStationDetail",
              .notify "MMM-SunGrow-NOTIFICATION_SUNGROW_DETAILS_DATA_RECEIVED"
                (.detailsData (detailsTransform result_data))])

/-- fetchCurrentPowerData (node_helper.js lines 238-378): token guard, the
POST (all config reads are inside the try block: an absent config throws a
TypeError that is caught and reported), 401 → clear token and return
silently, other non-ok → error, result_code ≠ "1" → error, absent
result_data → caught TypeError → error, absent device_point → silent return
(the "no data this cycle" condition), else the success notification. -/
def fetchCurrentPowerData (st : HelperState)
    (resp : ApiResponse (RealtimeData DevicePoint)) : HelperState × List Effect :=
  if st.token.isNone then
    (st, [.notify "SUN_GROW_ERROR" (.errorMsg "No token available.")])
  else
    match st.config with
    | none => (st, [.notify "SUN_GROW_ERROR" (.errorMsg "Cannot read properties of null")])
    | some _ =>
      match resp with
      | .transportError msg =>
        (st, [.fetchCall "getDeviceRealTimeData",
          .notify "SUN_GROW_ERROR" (.errorMsg msg)])
      | .http status result_code result_msg result_data =>
        if !resOk status then
          if status = 401 then
            ({st with token := none}, [.fetchCall "getDeviceRealTimeData"])
          else
            (st, [.fetchCall "getDeviceRealTimeData",
              .notify "SUN_GROW_ERROR"
                (.errorMsg ("Battery data HTTP error! status: " ++ toString status))])
        else if result_code ≠ "1" then
          (st, [.fetchCall "getDeviceRealTimeData",
            .notify "SUN_GROW_ERROR"
              (.errorMsg ("Battery data error: " ++ result_msg.getD ""))])
        else
          match result_data with
          | none =>
            (st, [.fetchCall "getDeviceRealTimeData",
              .notify "SUN_GROW_ERROR" (.errorMsg "Cannot read properties of undefined")])
          | some rd =>
            match rd.device_point with
            | none => (st, [.fetchCall "getDeviceRealTimeData"])
            | some dp =>
              (st, [.fetchCall "getDeviceRealTimeData",
                .notify "MMM-SunGrow-NOTIFICATION_SUNGROW_CURRENTPOWER_DATA_RECEIVED"
                  (.currentPowerData (currentPowerTransform dp))])

/-- fetchDayEnergyData (node_helper.js lines 402-495): same control flow as
fetchCurrentPowerData with the day-energy point set and payload. -/
def fetchDayEnergyData (st : HelperState)
    (resp : ApiResponse (RealtimeData DayDevicePoint)) : HelperState × List Effect :=
  if st.token.isNone then
    (st, [.notify "SUN_GROW_ERROR" (.errorMsg "No token available.")])
  else
    match st.config with
    | none => (st, [.notify "SUN_GROW_ERROR" (.errorMsg "Cannot read properties of null")])
    | some _ =>
      match resp with
      | .transportError msg =>
        (st, [.fetchCall "getDeviceRealTimeData",
          .notify "SUN_GROW_ERROR" (.errorMsg msg)])
      | .http status result_code result_msg result_data =>
        if !resOk status then
          if status = 401 then
            ({st with token := none}, [.fetchCall "getDeviceRealTimeData"])
          else
            (st, [.fetchCall "getDeviceRealTimeData",
              .notify "SUN_GROW_ERROR"
                (.errorMsg ("DayEnergy HTTP error! status: " ++ toString status))])
        else if result_code ≠ "1" then
          (st, [.fetchCall "getDeviceRealTimeData",
            .notify "SUN_GROW_ERROR"
              (.errorMsg ("DayEnergy data error: " ++ result_msg.getD ""))])
        else
          match result_data with
          | none =>
            (st, [.fetchCall "getDeviceRealTimeData",
              .notify "SUN_GROW_ERROR" (.errorMsg "Cannot read properties of undefined")])
          | some rd =>
            match rd.device_point with
            | none => (st, [.fetchCall "getDeviceRealTimeData"])
            | some dp =>
              (st, [.fetchCall "getDeviceRealTimeData",
                .notify "MMM-SunGrow-NOTIFICATION_SUNGROW_DAY_ENERGY_DATA_RECEIVED"
                  (.dayEnergyData (dayEnergyTransform dp))])

/-- The overview dispatch of the current node_helper.js: line 62 calls
`this.fetchOverviewData()`, but the file defines no such method, so the call
throws `TypeError: this.fetchOverviewData is not a function` inside the async
handler (an unhandled rejection): no state is touched and nothing is emitted
after the login stage.  (Only the earlier revision, src/unnamed/part_000
lines 353-380, defined the placeholder.) -/
def fetchOverviewData (st : HelperState) : HelperState × List Effect :=
  (st, [])

/-- The four data requests dispatched by socketNotificationReceived. -/
inductive RequestType
  | details
  | currentPower
  | overview
  | dayEnergy
deriving DecidableEq, Repr

/-- The vendor responses a single request cycle may consume. -/
structure Oracle where
  loginResp : ApiResponse LoginData
  detailsResp : ApiResponse DetailsRecord
  currentPowerResp : ApiResponse (RealtimeData DevicePoint)
  dayEnergyResp : ApiResponse (RealtimeData DayDevicePoint)

/-- The fetch dispatched for one request category
(the switch of node_helper.js lines 46-69). -/
def fetchStage (st : HelperState) (req : RequestType) (o : Oracle) :
    HelperState × List Effect :=
  match req with
  | .details => fetchDetailsData st o.detailsResp
  | .currentPower => fetchCurrentPowerData st o.currentPowerResp
  | .overview => fetchOverviewData st
  | .dayEnergy => fetchDayEnergyData st o.dayEnergyResp

/-- One full request cycle of socketNotificationReceived
(node_helper.js lines 46-69): ensureLogin, then the fetch for the requested
category. -/
def handleRequest (st : HelperState) (req : RequestType) (o : Oracle) :
    HelperState × List Effect :=
  let r1 := ensureLogin st o.loginResp
  let r2 := fetchStage r1.1 req o
  (r2.1, r1.2 ++ r2.2)

/-- All login preconditions hold and the response is a 2xx with vendor code
"1" and a present `result_data`: the path on which loginToISolarCloud writes
the token. -/
def loginOk (st : HelperState) (resp : ApiResponse LoginData) : Bool :=
  match st.config with
  | none => false
  | some cfg =>
    !(cfg.userName.isNone || cfg.userPassword.isNone) && !cfg.portalUrl.isNone &&
    match resp with
    | .transportError _ => false
    | .http status result_code _ result_data =>
      resOk status && (result_code == "1") && result_data.isSome

/-- The token carried by a successful login response (absent field allowed). -/
def loginRespToken : ApiResponse LoginData → Option String
  | .http _ _ _ (some ld) => ld.token
  | _ => none

/-- The response is the HTTP-401 authorization failure. -/
def is401 {α : Type} : ApiResponse α → Bool
  | .http status _ _ _ => !resOk status && (status == 401)
  | _ => false

/-- The guards of fetchDetailsData ahead of the network call: a config with a
plant serial number. -/
def detailsGuardsPass (st : HelperState) : Bool :=
  match st.config with
  | none => false
  | some cfg => cfg.plantSN.isSome

/-- C3: the cached token is mutated only by a successful login (which writes
the token carried by the response) and by an HTTP-401 data-fetch response
(which clears it); every other outcome of the login (non-"1" code, non-2xx
status, transport error, absent result_data) and every non-401 outcome of the
three data fetches leaves the token exactly as it was. -/
theorem c3_token_mutation_frame :
    (∀ (st : HelperState) (resp : ApiResponse LoginData),
      (loginToISolarCloud st resp).1.token =
        if loginOk st resp then loginRespToken resp else st.token)
    ∧ (∀ (st : HelperState) (resp : ApiResponse DetailsRecord),
      (fetchDetailsData st resp).1.token =
        if st.token.isSome && detailsGuardsPass st && is401 resp then none else st.token)
    ∧ (∀ (st : HelperState) (resp : ApiResponse (RealtimeData DevicePoint)),
      (fetchCurrentPowerData st resp).1.token =
        if st.token.isSome && st.config.isSome && is401 resp then none else st.token)
    ∧ (∀ (st : HelperState) (resp : ApiResponse (RealtimeData DayDevicePoint)),
      (fetchDayEnergyData st resp).1.token =
        if st.token.isSome && st.config.isSome && is401 resp then none else st.token)
    ∧ (∀ st : HelperState, (fetchOverviewData st).1.token = st.token) := by
  refine ⟨?_, ?_, ?_, ?_, ?_⟩
  · intro st resp
    rcases st with ⟨config, token, flag⟩
    cases config with
    | none => simp [loginToISolarCloud, loginOk]
    | some cfg =>
      cases resp with
      | transportError m =>
        simp only [loginToISolarCloud, loginOk]
        split_ifs <;> simp_all
      | http status code msg data =>
        cases data <;>
          · simp only [loginToISolarCloud, loginOk, loginRespToken]
            split_ifs <;> simp_all [Option.isSome_iff_ne_none]
  · intro st resp
    rcases st with ⟨config, token, flag⟩
    cases config with
    | none => cases token <;> simp [fetchDetailsData, detailsGuardsPass]
    | some cfg =>
      cases token with
      | none => simp [fetchDetailsData]
      | some t =>
        cases resp with
        | transportError m =>
          simp only [fetchDetailsData, detailsGuardsPass, is401]
          split_ifs <;> simp_all
        | http status code msg data =>
          simp only [fetchDetailsData, detailsGuardsPass, is401]
          split_ifs <;> simp_all
  · intro st resp
    rcases st with ⟨config, token, flag⟩
    cases config with
    | none => cases token <;> simp [fetchCurrentPowerData]
    | some cfg =>
      cases token with
      | none => simp [fetchCurrentPowerData]
      | some t =>
        cases resp with
        | transportError m =>
          simp only [fetchCurrentPowerData, is401]
          split_ifs <;> simp_all
        | http status code msg data =>
          rcases data with _ | rd
          · simp only [fetchCurrentPowerData, is401]
            split_ifs <;> simp_all
          · rcases rd with ⟨_ | dp⟩ <;>
              · simp only [fetchCurrentPowerData, is401]
                split_ifs <;> simp_all
  · intro st resp
    rcases st with ⟨config, token, flag⟩
    cases config with
    | none => cases token <;> simp [fetchDayEnergyData]
    | some cfg =>
      cases token with
      | none => simp [fetchDayEnergyData]
      | some t =>
        cases resp with
        | transportError m =>
          simp only [fetchDayEnergyData, is401]
          split_ifs <;> simp_all
        | http status code msg data =>
          rcases data with _ | rd
          · simp only [fetchDayEnergyData, is401]
            split_ifs <;> simp_all
          · rcases rd with ⟨_ | dp⟩ <;>
              · simp only [fetchDayEnergyData, is401]
                split_ifs <;> simp_all
  · intro st
    rcases st with ⟨config, token, flag⟩
    cases token <;> simp [fetchOverviewData]

/-- C7: whenever a token is already cached, ensureLogin returns immediately:
no effect at all (in particular no network call) and the state — token and
loginInProgress included — is returned unchanged. -/
theorem c7_cached_token_short_circuit :
    ∀ (st : HelperState) (t : String) (resp : ApiResponse LoginData),
      ensureLogin {st with token := some t} resp = ({st with token := some t}, []) := by
  intro st t resp
  rfl

/-- A fully-populated configuration. -/
def fullConfig : Config :=
  { userName := some "user", userPassword := some "pw",
    portalUrl := some "https://gateway.isolarcloud.eu", appKey := some "app",
    secretKey := some "secret", plantSN := some "SN100", plantId := some "12345" }

/-- A state with the full configuration and a cached token, no login in
progress. -/
def cachedTokenState : HelperState :=
  { config := some fullConfig, token := some "tok", loginInProgress := false }

/-- An oracle whose details fetch answers HTTP 401. -/
def oracle401Details : Oracle :=
  { loginResp := .transportError "unused",
    detailsResp := .http 401 "" none none,
    currentPowerResp := .transportError "unused",
    dayEnergyResp := .transportError "unused" }

/-- C4 counterexample: a details request that hits HTTP 401 with a cached
token.  The whole request cycle performs exactly one network call (the data
fetch), performs no login call, emits no notification of any kind (so no
retryable TokenExpired condition is surfaced), and only clears the token: the
request is retried zero times within that cycle, not exactly once as the
claim states. -/
theorem c4_counterexample_401_no_retry :
    handleRequest cachedTokenState RequestType.details oracle401Details =
      ({cachedTokenState with token := none}, [Effect.fetchCall "getPowerStationDetail"])
    ∧ (handleRequest cachedTokenState RequestType.details oracle401Details).2.countP
        Effect.isNetworkCall = 1
    ∧ (handleRequest cachedTokenState RequestType.details oracle401Details).2.countP
        (fun e => e == Effect.loginCall) = 0
    ∧ errCount (handleRequest cachedTokenState RequestType.details oracle401Details).2 = 0
    ∧ succCount (handleRequest cachedTokenState RequestType.details oracle401Details).2 = 0 :=
  ⟨rfl, rfl, rfl, rfl, rfl⟩

/-- The three credential checks loginToISolarCloud performs before its POST. -/
def credentialsPresent (cfg : Config) : Bool :=
  cfg.userName.isSome && cfg.userPassword.isSome && cfg.portalUrl.isSome

/-- C4 (amended): on an HTTP-401 data-fetch response the client clears the
cached token and returns silently — no notification, no TokenExpired signal,
no re-login and no retry within that request cycle (exactly one network call
is made, the original fetch); recovery happens on the NEXT request cycle,
whose ensureLogin sees the absent token and issues the login call first. -/
theorem c4_amended_401_clears_and_defers_relogin :
    (∀ (st : HelperState) (cfg : Config) (resp : ApiResponse DetailsRecord),
      st.config = some cfg → cfg.plantSN.isSome → st.token.isSome → is401 resp = true →
        fetchDetailsData st resp =
          ({st with token := none}, [Effect.fetchCall "getPowerStationDetail"]))
    ∧ (∀ (st : HelperState) (resp : ApiResponse (RealtimeData DevicePoint)),
      st.config.isSome → st.token.isSome → is401 resp = true →
        fetchCurrentPowerData st resp =
          ({st with token := none}, [Effect.fetchCall "getDeviceRealTimeData"]))
    ∧ (∀ (st : HelperState) (resp : ApiResponse (RealtimeData DayDevicePoint)),
      st.config.isSome → st.token.isSome → is401 resp = true →
        fetchDayEnergyData st resp =
          ({st with token := none}, [Effect.fetchCall "getDeviceRealTimeData"]))
    ∧ (∀ (st : HelperState) (cfg : Config) (req : RequestType) (o : Oracle),
      st.config = some cfg → credentialsPresent cfg = true → st.token = none →
      st.loginInProgress = false →
        (handleRequest st req o).2.head? = some Effect.loginCall) := by
  refine ⟨?_, ?_, ?_, ?_⟩
  · intro st cfg resp hcfg hsn htok h401
    rcases resp with m | ⟨status, code, msg, data⟩
    · simp [is401] at h401
    · simp only [is401, Bool.and_eq_true, beq_iff_eq, Bool.not_eq_true'] at h401
      obtain ⟨hok, hs⟩ := h401
      subst hs
      rcases st with ⟨config, token, flag⟩
      simp only at hcfg
      subst hcfg
      rcases token with _ | t
      · simp at htok
      · obtain ⟨sn, hsn2⟩ := Option.isSome_iff_exists.mp hsn
        simp [fetchDetailsData, hsn2, hok]
  · intro st resp hcfg htok h401
    rcases resp with m | ⟨status, code, msg, data⟩
    · simp [is401] at h401
    · simp only [is401, Bool.and_eq_true, beq_iff_eq, Bool.not_eq_true'] at h401
      obtain ⟨hok, hs⟩ := h401
      subst hs
      rcases st with ⟨config, token, flag⟩
      obtain ⟨cfg, hcfg2⟩ := Option.isSome_iff_exists.mp hcfg
      simp only at hcfg2
      subst hcfg2
      rcases token with _ | t
      · simp at htok
      · simp [fetchCurrentPowerData, hok]
  · intro st resp hcfg htok h401
    rcases resp with m | ⟨status, code, msg, data⟩
    · simp [is401] at h401
    · simp only [is401, Bool.and_eq_true, beq_iff_eq, Bool.not_eq_true'] at h401
      obtain ⟨hok, hs⟩ := h401
      subst hs
      rcases st with ⟨config, token, flag⟩
      obtain ⟨cfg, hcfg2⟩ := Option.isSome_iff_exists.mp hcfg
      simp only at hcfg2
      subst hcfg2
      rcases token with _ | t
      · simp at htok
      · simp [fetchDayEnergyData, hok]
  · intro st cfg req o hcfg hcred htok hflag
    simp only [credentialsPresent, Bool.and_eq_true] at hcred
    obtain ⟨⟨hu, hp⟩, hport⟩ := hcred
    rcases st with ⟨config, token, flag⟩
    simp only at hcfg htok hflag
    subst hcfg htok hflag
    rcases cfg with ⟨un, pw, purl, ak, sk, sn, pid⟩
    rcases un with _ | u
    · simp at hu
    rcases pw with _ | p
    · simp at hp
    rcases purl with _ | pu
    · simp at hport
    have hlogin : ∀ (tx : Option String) (fx : Bool),
        ∃ rest, (loginToISolarCloud ⟨some ⟨some u, some p, some pu, ak, sk, sn, pid⟩, tx, fx⟩
          o.loginResp).2 = Effect.loginCall :: rest := by
      intro tx fx
      rcases o.loginResp with m | ⟨status, code, msg, data⟩
      · exact ⟨_, rfl⟩
      · cases data <;>
          · simp only [loginToISolarCloud]
            split_ifs <;> first
              | exact ⟨_, rfl⟩
              | simp_all
    obtain ⟨rest, hrest⟩ := hlogin none true
    cases req <;>
      simp [handleRequest, ensureLogin, hrest]

/-- Witness for the amended C4 theorem: the 401 details fetch at the concrete
cached-token state, and the follow-up cycle that starts with the login call. -/
theorem c4_amended_401_witness :
    fetchDetailsData cachedTokenState (ApiResponse.http 401 "" none none) =
      ({cachedTokenState with token := none}, [Effect.fetchCall "getPowerStationDetail"])
    ∧ (handleRequest ⟨some fullConfig, none, false⟩ RequestType.details
        oracle401Details).2.head? = some Effect.loginCall := by
  constructor
  · exact c4_amended_401_clears_and_defers_relogin.1 cachedTokenState fullConfig
      (ApiResponse.http 401 "" none none) rfl rfl rfl (by decide)
  · exact c4_amended_401_clears_and_defers_relogin.2.2.2 ⟨some fullConfig, none, false⟩
      fullConfig RequestType.details oracle401Details rfl rfl rfl rfl

/-- A realtime response that is well-formed ("1", 2xx, result_data present)
but carries no device point: the "no data this cycle" condition. -/
def noDataRT {pt : Type} : ApiResponse (RealtimeData pt) → Bool
  | .http status result_code _ (some rd) =>
    resOk status && (result_code == "1") && rd.device_point.isNone
  | _ => false

/-- The conditions under which the fetch of a request cycle produces no
notification: an HTTP-401 response, an absent device point (for the realtime
endpoints), or the overview request, whose dispatch target is undefined in
the current source and dies in an uncaught TypeError. -/
def swallowed (req : RequestType) (o : Oracle) : Bool :=
  match req with
  | .details => is401 o.detailsResp
  | .currentPower => is401 o.currentPowerResp || noDataRT o.currentPowerResp
  | .overview => true
  | .dayEnergy => is401 o.dayEnergyResp || noDataRT o.dayEnergyResp

theorem succCount_nil : succCount [] = 0 := rfl

theorem errCount_nil : errCount [] = 0 := rfl

theorem succCount_append (l l2 : List Effect) :
    succCount (l ++ l2) = succCount l + succCount l2 :=
  List.countP_append _ _ _

theorem errCount_append (l l2 : List Effect) :
    errCount (l ++ l2) = errCount l + errCount l2 :=
  List.countP_append _ _ _

theorem fetchDetailsData_noToken (st : HelperState) (resp : ApiResponse DetailsRecord)
    (h : st.token = none) :
    fetchDetailsData st resp =
      (st, [.notify "SUN_GROW_ERROR" (.errorMsg "No token available.")]) := by
  simp [fetchDetailsData, h]

theorem fetchCurrentPowerData_noToken (st : HelperState)
    (resp : ApiResponse (RealtimeData DevicePoint)) (h : st.token = none) :
    fetchCurrentPowerData st resp =
      (st, [.notify "SUN_GROW_ERROR" (.errorMsg "No token available.")]) := by
  simp [fetchCurrentPowerData, h]

theorem fetchDayEnergyData_noToken (st : HelperState)
    (resp : ApiResponse (RealtimeData DayDevicePoint)) (h : st.token = none) :
    fetchDayEnergyData st resp =
      (st, [.notify "SUN_GROW_ERROR" (.errorMsg "No token available.")]) := by
  simp [fetchDayEnergyData, h]

/-- Notification classification of the fetch stage for a state with no
token: one error notification from the token guard, except for the overview
request, whose undefined dispatch target emits nothing. -/
theorem fetchStage_noToken_class (st : HelperState) (req : RequestType) (o : Oracle)
    (h : st.token = none) :
    succCount (fetchStage st req o).2 = 0
    ∧ (errCount (fetchStage st req o).2 = 1
        ∨ (errCount (fetchStage st req o).2 = 0 ∧ swallowed req o = true)) := by
  cases req
  · exact ⟨by simp [fetchStage, fetchDetailsData_noToken, h, succCount,
      Effect.isSuccessNotify],
      Or.inl (by simp [fetchStage, fetchDetailsData_noToken, h, errCount,
        Effect.isErrorNotify])⟩
  · exact ⟨by simp [fetchStage, fetchCurrentPowerData_noToken, h, succCount,
      Effect.isSuccessNotify],
      Or.inl (by simp [fetchStage, fetchCurrentPowerData_noToken, h, errCount,
        Effect.isErrorNotify])⟩
  · exact ⟨rfl, Or.inr ⟨rfl, rfl⟩⟩
  · exact ⟨by simp [fetchStage, fetchDayEnergyData_noToken, h, succCount,
      Effect.isSuccessNotify],
      Or.inl (by simp [fetchStage, fetchDayEnergyData_noToken, h, errCount,
        Effect.isErrorNotify])⟩

/-- Notification classification of fetchDetailsData under a cached token and
a set config: one success and no error, or one error and no success, or
nothing at all and the response was the 401 case. -/
theorem fetchDetailsData_class (st : HelperState) (resp : ApiResponse DetailsRecord)
    (htok : st.token.isSome = true) (hcfg : st.config.isSome = true) :
    (succCount (fetchDetailsData st resp).2 = 1 ∧ errCount (fetchDetailsData st resp).2 = 0)
    ∨ (succCount (fetchDetailsData st resp).2 = 0 ∧ errCount (fetchDetailsData st resp).2 = 1)
    ∨ (succCount (fetchDetailsData st resp).2 = 0 ∧ errCount (fetchDetailsData st resp).2 = 0
        ∧ is401 resp = true) := by
  rcases st with ⟨config, token, flag⟩
  rcases token with _ | t
  · simp at htok
  rcases config with _ | cfg
  · simp at hcfg
  rcases hsn : cfg.plantSN with _ | sn
  · refine Or.inr (Or.inl ?_)
    simp [fetchDetailsData, hsn, succCount, errCount, Effect.isSuccessNotify,
      Effect.isErrorNotify]
  rcases resp with m | ⟨status, code, msg, data⟩
  · refine Or.inr (Or.inl ?_)
    simp [fetchDetailsData, hsn, succCount, errCount, Effect.isSuccessNotify,
      Effect.isErrorNotify]
  by_cases hok : resOk status
  · by_cases hcode : code = "1"
    · refine Or.inl ?_
      subst hcode
      simp [fetchDetailsData, hsn, hok, succCount, errCount, Effect.isSuccessNotify,
        Effect.isErrorNotify]
    · refine Or.inr (Or.inl ?_)
      simp [fetchDetailsData, hsn, hok, hcode, succCount, errCount, Effect.isSuccessNotify,
        Effect.isErrorNotify]
  · have hok2 : resOk status = false := by simpa using hok
    by_cases h401 : status = 401
    · refine Or.inr (Or.inr ?_)
      subst h401
      simp [fetchDetailsData, hsn, hok2, is401, succCount, errCount, Effect.isSuccessNotify, Effect.isErrorNotify]
    · refine Or.inr (Or.inl ?_)
      simp [fetchDetailsData, hsn, hok2, h401, succCount, errCount, Effect.isSuccessNotify,
        Effect.isErrorNotify]

/-- Notification classification of fetchCurrentPowerData under a cached
token: one success, or one error, or silence on 401 / absent device point. -/
theorem fetchCurrentPowerData_class (st : HelperState)
    (resp : ApiResponse (RealtimeData DevicePoint)) (htok : st.token.isSome = true) :
    (succCount (fetchCurrentPowerData st resp).2 = 1
      ∧ errCount (fetchCurrentPowerData st resp).2 = 0)
    ∨ (succCount (fetchCurrentPowerData st resp).2 = 0
      ∧ errCount (fetchCurrentPowerData st resp).2 = 1)
    ∨ (succCount (fetchCurrentPowerData st resp).2 = 0
      ∧ errCount (fetchCurrentPowerData st resp).2 = 0
      ∧ (is401 resp || noDataRT resp) = true) := by
  rcases st with ⟨config, token, flag⟩
  rcases token with _ | t
  · simp at htok
  rcases config with _ | cfg
  · refine Or.inr (Or.inl ?_)
    simp [fetchCurrentPowerData, succCount, errCount, Effect.isSuccessNotify,
      Effect.isErrorNotify]
  rcases resp with m | ⟨status, code, msg, data⟩
  · refine Or.inr (Or.inl ?_)
    simp [fetchCurrentPowerData, succCount, errCount, Effect.isSuccessNotify,
      Effect.isErrorNotify]
  by_cases hok : resOk status
  · by_cases hcode : code = "1"
    · subst hcode
      rcases data with _ | rd
      · refine Or.inr (Or.inl ?_)
        simp [fetchCurrentPowerData, hok, succCount, errCount, Effect.isSuccessNotify,
          Effect.isErrorNotify]
      · rcases hdp : rd.device_point with _ | dp
        · refine Or.inr (Or.inr ?_)
          simp [fetchCurrentPowerData, hok, hdp, noDataRT, succCount, errCount, Effect.isSuccessNotify, Effect.isErrorNotify]
        · refine Or.inl ?_
          simp [fetchCurrentPowerData, hok, hdp, succCount, errCount,
            Effect.isSuccessNotify, Effect.isErrorNotify]
    · refine Or.inr (Or.inl ?_)
      simp [fetchCurrentPowerData, hok, hcode, succCount, errCount, Effect.isSuccessNotify,
        Effect.isErrorNotify]
  · have hok2 : resOk status = false := by simpa using hok
    by_cases h401 : status = 401
    · refine Or.inr (Or.inr ?_)
      subst h401
      simp [fetchCurrentPowerData, hok2, is401, succCount, errCount, Effect.isSuccessNotify, Effect.isErrorNotify]
    · refine Or.inr (Or.inl ?_)
      simp [fetchCurrentPowerData, hok2, h401, succCount, errCount, Effect.isSuccessNotify,
        Effect.isErrorNotify]

/-- Notification classification of fetchDayEnergyData under a cached token. -/
theorem fetchDayEnergyData_class (st : HelperState)
    (resp : ApiResponse (RealtimeData DayDevicePoint)) (htok : st.token.isSome = true) :
    (succCount (fetchDayEnergyData st resp).2 = 1
      ∧ errCount (fetchDayEnergyData st resp).2 = 0)
    ∨ (succCount (fetchDayEnergyData st resp).2 = 0
      ∧ errCount (fetchDayEnergyData st resp).2 = 1)
    ∨ (succCount (fetchDayEnergyData st resp).2 = 0
      ∧ errCount (fetchDayEnergyData st resp).2 = 0
      ∧ (is401 resp || noDataRT resp) = true) := by
  rcases st with ⟨config, token, flag⟩
  rcases token with _ | t
  · simp at htok
  rcases config with _ | cfg
  · refine Or.inr (Or.inl ?_)
    simp [fetchDayEnergyData, succCount, errCount, Effect.isSuccessNotify,
      Effect.isErrorNotify]
  rcases resp with m | ⟨status, code, msg, data⟩
  · refine Or.inr (Or.inl ?_)
    simp [fetchDayEnergyData, succCount, errCount, Effect.isSuccessNotify,
      Effect.isErrorNotify]
  by_cases hok : resOk status
  · by_cases hcode : code = "1"
    · subst hcode
      rcases data with _ | rd
      · refine Or.inr (Or.inl ?_)
        simp [fetchDayEnergyData, hok, succCount, errCount, Effect.isSuccessNotify,
          Effect.isErrorNotify]
      · rcases hdp : rd.device_point with _ | dp
        · refine Or.inr (Or.inr ?_)
          simp [fetchDayEnergyData, hok, hdp, noDataRT, succCount, errCount, Effect.isSuccessNotify, Effect.isErrorNotify]
        · refine Or.inl ?_
          simp [fetchDayEnergyData, hok, hdp, succCount, errCount,
            Effect.isSuccessNotify, Effect.isErrorNotify]
    · refine Or.inr (Or.inl ?_)
      simp [fetchDayEnergyData, hok, hcode, succCount, errCount, Effect.isSuccessNotify,
        Effect.isErrorNotify]
  · have hok2 : resOk status = false := by simpa using hok
    by_cases h401 : status = 401
    · refine Or.inr (Or.inr ?_)
      subst h401
      simp [fetchDayEnergyData, hok2, is401, succCount, errCount, Effect.isSuccessNotify, Effect.isErrorNotify]
    · refine Or.inr (Or.inl ?_)
      simp [fetchDayEnergyData, hok2, h401, succCount, errCount, Effect.isSuccessNotify,
        Effect.isErrorNotify]

/-- Notification classification of the whole fetch stage under a cached
token and well-formed config. -/
theorem fetchStage_token_class (st : HelperState) (req : RequestType) (o : Oracle)
    (htok : st.token.isSome = true) (hcfg : st.config.isSome = true) :
    (succCount (fetchStage st req o).2 = 1 ∧ errCount (fetchStage st req o).2 = 0)
    ∨ (succCount (fetchStage st req o).2 = 0 ∧ errCount (fetchStage st req o).2 = 1)
    ∨ (succCount (fetchStage st req o).2 = 0 ∧ errCount (fetchStage st req o).2 = 0
        ∧ swallowed req o = true) := by
  cases req
  · exact fetchDetailsData_class st o.detailsResp htok hcfg
  · exact fetchCurrentPowerData_class st o.currentPowerResp htok
  · exact Or.inr (Or.inr ⟨rfl, rfl, rfl⟩)
  · exact fetchDayEnergyData_class st o.dayEnergyResp htok

/-- The login never emits a success notification, never touches config or
the flag, and either reports exactly one error leaving the token unchanged,
or reports nothing and writes the token carried by the response. -/
theorem loginToISolarCloud_class (st : HelperState) (resp : ApiResponse LoginData) :
    succCount (loginToISolarCloud st resp).2 = 0
    ∧ (loginToISolarCloud st resp).1.config = st.config
    ∧ (loginToISolarCloud st resp).1.loginInProgress = st.loginInProgress
    ∧ ((errCount (loginToISolarCloud st resp).2 = 1
          ∧ (loginToISolarCloud st resp).1.token = st.token)
        ∨ (errCount (loginToISolarCloud st resp).2 = 0
          ∧ (loginToISolarCloud st resp).1.token = loginRespToken resp
          ∧ st.config.isSome = true)) := by
  rcases st with ⟨config, token, flag⟩
  rcases config with _ | cfg
  · simp [loginToISolarCloud, succCount, errCount, Effect.isSuccessNotify,
      Effect.isErrorNotify]
  rcases resp with m | ⟨status, code, msg, data⟩
  · simp only [loginToISolarCloud]
    split_ifs <;>
      simp [succCount, errCount, Effect.isSuccessNotify, Effect.isErrorNotify]
  · cases data <;>
      · simp only [loginToISolarCloud, loginRespToken]
        split_ifs <;>
          simp [succCount, errCount, Effect.isSuccessNotify, Effect.isErrorNotify]

/-- A state with the full configuration and no cached token. -/
def noTokenState : HelperState :=
  { config := some fullConfig, token := none, loginInProgress := false }

/-- An oracle whose login is rejected by the vendor (result_code "0"). -/
def failedLoginOracle : Oracle :=
  { loginResp := .http 200 "0" (some "er_invalid_appkey") none,
    detailsResp := .transportError "unused",
    currentPowerResp := .transportError "unused",
    dayEnergyResp := .transportError "unused" }

/-- C5 counterexample: a details request arriving with no cached token whose
login attempt is rejected by the vendor produces TWO error notifications in
one request cycle — one from loginToISolarCloud's catch block and a second
"No token available." error from fetchDetailsData's token guard — and the
"no data this cycle" exception does not apply, so the claim that exactly one
notification is emitted per request is false at this input. -/
theorem c5_counterexample_double_error :
    errCount (handleRequest noTokenState RequestType.details failedLoginOracle).2 = 2
    ∧ succCount (handleRequest noTokenState RequestType.details failedLoginOracle).2 = 0
    ∧ swallowed RequestType.details failedLoginOracle = false :=
  ⟨rfl, rfl, rfl⟩

/-- C5 (amended): per request cycle (with the login flag clear and a config
present whenever a token is cached), either exactly one success notification,
or exactly one error notification, or zero notifications — the latter when
the data fetch is swallowed: an HTTP-401 response, a well-formed realtime
response with no device point, or the overview request, whose dispatch
target fetchOverviewData is undefined in the current source so the cycle
dies in an uncaught TypeError after the login stage — or, when no token was
cached, the login attempt itself reported an error and a non-overview fetch
still ran, two error notifications (the login error plus the no-token error
of the subsequent fetch). -/
theorem c5_amended_notification_discipline :
    ∀ (st : HelperState) (req : RequestType) (o : Oracle),
      st.loginInProgress = false →
      (st.token.isSome = true → st.config.isSome = true) →
      (succCount (handleRequest st req o).2 = 1 ∧ errCount (handleRequest st req o).2 = 0)
      ∨ (succCount (handleRequest st req o).2 = 0 ∧ errCount (handleRequest st req o).2 = 1)
      ∨ (succCount (handleRequest st req o).2 = 0 ∧ errCount (handleRequest st req o).2 = 0
          ∧ swallowed req o = true)
      ∨ (succCount (handleRequest st req o).2 = 0 ∧ errCount (handleRequest st req o).2 = 2
          ∧ st.token = none
          ∧ errCount (loginToISolarCloud {st with loginInProgress := true} o.loginResp).2 = 1) := by
  intro st req o hflag hwf
  have hHR : handleRequest st req o =
      ((fetchStage (ensureLogin st o.loginResp).1 req o).1,
        (ensureLogin st o.loginResp).2 ++ (fetchStage (ensureLogin st o.loginResp).1 req o).2) :=
    rfl
  rcases htok : st.token with _ | t
  · -- no cached token: the login runs inside ensureLogin
    have hE : ensureLogin st o.loginResp =
        ({(loginToISolarCloud {st with loginInProgress := true} o.loginResp).1 with
            loginInProgress := false},
          (loginToISolarCloud {st with loginInProgress := true} o.loginResp).2) := by
      simp [ensureLogin, htok, hflag]
    have hcls := loginToISolarCloud_class {st with loginInProgress := true} o.loginResp
    have hsucc1 : succCount (ensureLogin st o.loginResp).2 = 0 := by
      rw [hE]; exact hcls.1
    rcases hcls.2.2.2 with ⟨herr1, htk⟩ | ⟨herr0, htk, hcfg1⟩
    · -- the login reported one error; the fetch stage adds the no-token error
      have herrA : errCount (ensureLogin st o.loginResp).2 = 1 := by
        rw [hE]; exact herr1
      have htk2 : (ensureLogin st o.loginResp).1.token = none := by
        rw [hE]
        show (loginToISolarCloud {st with loginInProgress := true} o.loginResp).1.token = none
        simpa [htok] using htk
      have hf := fetchStage_noToken_class (ensureLogin st o.loginResp).1 req o htk2
      rcases hf.2 with hf2 | ⟨hf2, hsw⟩
      · refine Or.inr (Or.inr (Or.inr ⟨?_, ?_, htok ▸ rfl, htok ▸ herr1⟩))
        · rw [hHR]; simp [succCount_append, hsucc1, hf.1]
        · rw [hHR]; simp [errCount_append, herrA, hf2]
      · refine Or.inr (Or.inl ⟨?_, ?_⟩)
        · rw [hHR]; simp [succCount_append, hsucc1, hf.1]
        · rw [hHR]; simp [errCount_append, herrA, hf2]
    · -- the login succeeded without any notification
      have herrA : errCount (ensureLogin st o.loginResp).2 = 0 := by
        rw [hE]; exact herr0
      rcases htk3 : loginRespToken o.loginResp with _ | tok
      · -- a "successful" login whose result carried no token field
        have htk2 : (ensureLogin st o.loginResp).1.token = none := by
          rw [hE]
          show (loginToISolarCloud {st with loginInProgress := true} o.loginResp).1.token = none
          rw [htk, htk3]
        have hf := fetchStage_noToken_class (ensureLogin st o.loginResp).1 req o htk2
        rcases hf.2 with hf2 | ⟨hf2, hsw⟩
        · refine Or.inr (Or.inl ⟨?_, ?_⟩)
          · rw [hHR]; simp [succCount_append, hsucc1, hf.1]
          · rw [hHR]; simp [errCount_append, herrA, hf2]
        · refine Or.inr (Or.inr (Or.inl ⟨?_, ?_, hsw⟩))
          · rw [hHR]; simp [succCount_append, hsucc1, hf.1]
          · rw [hHR]; simp [errCount_append, herrA, hf2]
      · -- the login cached a token; classify the fetch stage
        have htk2 : (ensureLogin st o.loginResp).1.token.isSome = true := by
          rw [hE]
          show (loginToISolarCloud {st with loginInProgress := true}
            o.loginResp).1.token.isSome = true
          rw [htk, htk3]; rfl
        have hcfg2 : (ensureLogin st o.loginResp).1.config.isSome = true := by
          rw [hE]
          show (loginToISolarCloud {st with loginInProgress := true}
            o.loginResp).1.config.isSome = true
          rw [hcls.2.1]
          simpa using hcfg1
        have hf := fetchStage_token_class (ensureLogin st o.loginResp).1 req o htk2 hcfg2
        rcases hf with ⟨h1, h2⟩ | ⟨h1, h2⟩ | ⟨h1, h2, h3⟩
        · exact Or.inl ⟨by rw [hHR]; simp [succCount_append, hsucc1, h1],
            by rw [hHR]; simp [errCount_append, herrA, h2]⟩
        · exact Or.inr (Or.inl ⟨by rw [hHR]; simp [succCount_append, hsucc1, h1],
            by rw [hHR]; simp [errCount_append, herrA, h2]⟩)
        · exact Or.inr (Or.inr (Or.inl ⟨by rw [hHR]; simp [succCount_append, hsucc1, h1],
            by rw [hHR]; simp [errCount_append, herrA, h2], h3⟩))
  · -- cached token: ensureLogin is a silent no-op
    have hE : ensureLogin st o.loginResp = (st, []) := by
      simp [ensureLogin, htok]
    have hsucc1 : succCount (ensureLogin st o.loginResp).2 = 0 := by
      rw [hE]; rfl
    have herrA : errCount (ensureLogin st o.loginResp).2 = 0 := by
      rw [hE]; rfl
    have htk2 : (ensureLogin st o.loginResp).1.token.isSome = true := by
      rw [hE]; simp [htok]
    have hcfg2 : (ensureLogin st o.loginResp).1.config.isSome = true := by
      rw [hE]
      exact hwf (by simp [htok])
    have hf := fetchStage_token_class (ensureLogin st o.loginResp).1 req o htk2 hcfg2
    rcases hf with ⟨h1, h2⟩ | ⟨h1, h2⟩ | ⟨h1, h2, h3⟩
    · exact Or.inl ⟨by rw [hHR]; simp [succCount_append, hsucc1, h1],
        by rw [hHR]; simp [errCount_append, herrA, h2]⟩
    · exact Or.inr (Or.inl ⟨by rw [hHR]; simp [succCount_append, hsucc1, h1],
        by rw [hHR]; simp [errCount_append, herrA, h2]⟩)
    · exact Or.inr (Or.inr (Or.inl ⟨by rw [hHR]; simp [succCount_append, hsucc1, h1],
        by rw [hHR]; simp [errCount_append, herrA, h2], h3⟩))

/-- Witness for the amended C5 theorem at a concrete cached-token overview
request. -/
theorem c5_amended_notification_discipline_witness :
    (succCount (handleRequest cachedTokenState RequestType.overview failedLoginOracle).2 = 1
      ∧ errCount (handleRequest cachedTokenState RequestType.overview failedLoginOracle).2 = 0)
    ∨ (succCount (handleRequest cachedTokenState RequestType.overview failedLoginOracle).2 = 0
      ∧ errCount (handleRequest cachedTokenState RequestType.overview failedLoginOracle).2 = 1)
    ∨ (succCount (handleRequest cachedTokenState RequestType.overview failedLoginOracle).2 = 0
      ∧ errCount (handleRequest cachedTokenState RequestType.overview failedLoginOracle).2 = 0
      ∧ swallowed RequestType.overview failedLoginOracle = true)
    ∨ (succCount (handleRequest cachedTokenState RequestType.overview failedLoginOracle).2 = 0
      ∧ errCount (handleRequest cachedTokenState RequestType.overview failedLoginOracle).2 = 2
      ∧ cachedTokenState.token = none
      ∧ errCount (loginToISolarCloud {cachedTokenState with loginInProgress := true}
          failedLoginOracle.loginResp).2 = 1) :=
  c5_amended_notification_discipline cachedTokenState RequestType.overview failedLoginOracle
    rfl (fun _ => rfl)

namespace Sessions

/-
  Interleaving semantics of ensureLogin (node_helper.js lines 77-100) for N
  concurrently arriving requests sharing one node_helper state.  JavaScript
  is single-threaded: control can only change hands at an await, so the
  whole synchronous prefix of ensureLogin — the token check, the
  loginInProgress check and (on the fresh-login path) setting the flag and
  issuing the login network call — is one atomic step.  The model abstracts
  the token to presence (Bool) and assumes a well-formed config, under which
  each serialized run of loginToISolarCloud issues exactly one login network
  call; `loginCalls` counts those calls.
-/

/-- The control point of one caller of ensureLogin. -/
inductive CallerPC
  | start
  | waiting
  | inLogin
  | done
deriving DecidableEq, Repr

/-- The shared state plus the control points of the callers. -/
structure SysState where
  token : Bool
  loginInProgress : Bool
  loginCalls : Nat
  callers : List CallerPC
deriving DecidableEq, Repr

/-- Is this caller currently inside the login network call? -/
def isInLogin : CallerPC → Bool
  | .inLogin => true
  | _ => false

/-- Number of login network calls currently in flight. -/
def inFlight (s : SysState) : Nat := s.callers.countP isInLogin

/-- Every caller has issued its ensureLogin call (left `start`). -/
def noneAtStart (s : SysState) : Prop := ∀ p ∈ s.callers, p ≠ CallerPC.start

/-- N callers about to invoke ensureLogin on the fresh helper state. -/
def init (n : Nat) : SysState :=
  { token := false, loginInProgress := false, loginCalls := 0,
    callers := List.replicate n CallerPC.start }

/-- One atomic step of the interleaving semantics of ensureLogin:
- `enterDone`: the token check succeeds; the caller returns at once;
- `enterWait`: no token and a login is in flight; the caller parks in the
  polling loop without issuing a login;
- `startLogin`: no token and no login in flight; the caller sets the flag
  and issues the one login network call (lines 94-96);
- `exitWait`: a parked caller observes the cleared flag and returns;
- `resolve`: the in-flight login resolves with success or failure; the
  finally clause clears the flag unconditionally (lines 97-99), and only a
  success sets the token. -/
inductive Step : SysState → SysState → Prop
  | enterDone (s : SysState) (i : Nat) :
      s.callers[i]? = some CallerPC.start → s.token = true →
      Step s {s with callers := s.callers.set i CallerPC.done}
  | enterWait (s : SysState) (i : Nat) :
      s.callers[i]? = some CallerPC.start → s.token = false →
      s.loginInProgress = true →
      Step s {s with callers := s.callers.set i CallerPC.waiting}
  | startLogin (s : SysState) (i : Nat) :
      s.callers[i]? = some CallerPC.start → s.token = false →
      s.loginInProgress = false →
      Step s {s with callers := s.callers.set i CallerPC.inLogin, loginInProgress := true, loginCalls := s.loginCalls + 1}
  | exitWait (s : SysState) (i : Nat) :
      s.callers[i]? = some CallerPC.waiting → s.loginInProgress = false →
      Step s {s with callers := s.callers.set i CallerPC.done}
  | resolve (s : SysState) (i : Nat) (success : Bool) :
      s.callers[i]? = some CallerPC.inLogin →
      Step s {s with callers := s.callers.set i CallerPC.done, loginInProgress := false, token := s.token || success}

/-- Reachability along the interleaving semantics. -/
abbrev Reach : SysState → SysState → Prop := Relation.ReflTransGen Step

/-- A step during which no login completes (no caller moves from inLogin to
done). -/
def StepNR (s s2 : SysState) : Prop :=
  Step s s2 ∧
    ∀ i : Nat, ¬(s.callers[i]? = some CallerPC.inLogin ∧ s2.callers[i]? = some CallerPC.done)

/-- Reachability before any login completes. -/
abbrev ReachNR : SysState → SysState → Prop := Relation.ReflTransGen StepNR

/-- The mutual-exclusion invariant: the flag is set exactly while one login
call is in flight. -/
def MutexInv (s : SysState) : Prop :=
  inFlight s = if s.loginInProgress then 1 else 0

theorem mutexInv_init (n : Nat) : MutexInv (init n) := by
  simp [MutexInv, inFlight, init, List.countP_replicate, isInLogin]

theorem mutexInv_step {s s2 : SysState} (h : Step s s2) (hinv : MutexInv s) :
    MutexInv s2 := by
  cases h with
  | enterDone i hp ht =>
    obtain ⟨hlen, hget⟩ := List.getElem?_eq_some_iff.mp hp
    simpa [MutexInv, inFlight, List.countP_set, hlen, hget, isInLogin] using hinv
  | enterWait i hp ht hf =>
    obtain ⟨hlen, hget⟩ := List.getElem?_eq_some_iff.mp hp
    simpa [MutexInv, inFlight, List.countP_set, hlen, hget, isInLogin] using hinv
  | startLogin i hp ht hf =>
    obtain ⟨hlen, hget⟩ := List.getElem?_eq_some_iff.mp hp
    simp only [MutexInv, inFlight, hf, if_false] at hinv
    simp [MutexInv, inFlight, List.countP_set, hlen, hget, isInLogin, hinv]
  | exitWait i hp hf =>
    obtain ⟨hlen, hget⟩ := List.getElem?_eq_some_iff.mp hp
    simpa [MutexInv, inFlight, List.countP_set, hlen, hget, isInLogin] using hinv
  | resolve i success hp =>
    obtain ⟨hlen, hget⟩ := List.getElem?_eq_some_iff.mp hp
    have hfl : s.loginInProgress = true := by
      by_contra hcon
      simp only [Bool.not_eq_true] at hcon
      have hle := List.boole_getElem_le_countP isInLogin s.callers i hlen
      rw [hget] at hle
      simp only [isInLogin, if_true] at hle
      simp only [MutexInv, inFlight, hcon, Bool.false_eq_true, if_false] at hinv
      omega
    simp only [MutexInv, inFlight, hfl, if_true] at hinv
    simp [MutexInv, inFlight, List.countP_set, hlen, hget, isInLogin, hinv]

theorem mutexInv_reach {s0 s : SysState} (h : Reach s0 s) (h0 : MutexInv s0) :
    MutexInv s := by
  induction h with
  | refl => exact h0
  | tail h1 h2 ih => exact mutexInv_step h2 ih

/-- Invariant of the phase before any login resolves: the token is still
absent, and either nothing has happened yet (flag clear, no calls, everyone
at start), or exactly one login call has been issued, the flag is set, and
nobody is done. -/
def PreInv (s : SysState) : Prop :=
  s.token = false ∧
    ((s.loginInProgress = false ∧ s.loginCalls = 0 ∧ ∀ p ∈ s.callers, p = CallerPC.start)
      ∨ (s.loginInProgress = true ∧ s.loginCalls = 1 ∧ ∀ p ∈ s.callers, p ≠ CallerPC.done))

theorem preInv_init (n : Nat) : PreInv (init n) := by
  refine ⟨rfl, Or.inl ⟨rfl, rfl, ?_⟩⟩
  intro p hp
  exact (List.mem_replicate.mp hp).2

theorem preInv_stepNR {s s2 : SysState} (h : StepNR s s2) (hinv : PreInv s) :
    PreInv s2 := by
  obtain ⟨hstep, hnr⟩ := h
  obtain ⟨htok, hcase⟩ := hinv
  cases hstep with
  | enterDone i hp ht =>
    rw [htok] at ht
    exact absurd ht (by decide)
  | enterWait i hp ht hf =>
    rcases hcase with ⟨hf0, hc0, hall⟩ | ⟨hf1, hc1, hnd⟩
    · rw [hf0] at hf
      exact absurd hf (by decide)
    · refine ⟨htok, Or.inr ⟨hf1, hc1, ?_⟩⟩
      intro p hpmem
      rcases List.mem_or_eq_of_mem_set hpmem with hm | he
      · exact hnd p hm
      · subst he; decide
  | startLogin i hp ht hf =>
    rcases hcase with ⟨hf0, hc0, hall⟩ | ⟨hf1, hc1, hnd⟩
    · refine ⟨htok, Or.inr ⟨rfl, by rw [hc0], ?_⟩⟩
      intro p hpmem
      rcases List.mem_or_eq_of_mem_set hpmem with hm | he
      · rw [hall p hm]; decide
      · subst he; decide
    · rw [hf1] at hf
      exact absurd hf (by decide)
  | exitWait i hp hf =>
    rcases hcase with ⟨hf0, hc0, hall⟩ | ⟨hf1, hc1, hnd⟩
    · obtain ⟨hlen, hget⟩ := List.getElem?_eq_some_iff.mp hp
      have hmem := List.getElem_mem hlen
      have hstart := hall _ hmem
      rw [hget] at hstart
      exact absurd hstart (by decide)
    · rw [hf1] at hf
      exact absurd hf (by decide)
  | resolve i success hp =>
    exfalso
    obtain ⟨hlen, hget⟩ := List.getElem?_eq_some_iff.mp hp
    exact hnr i ⟨hp, List.getElem?_set_self hlen⟩

theorem preInv_reachNR {s0 s : SysState} (h : ReachNR s0 s) (h0 : PreInv s0) :
    PreInv s := by
  induction h with
  | refl => exact h0
  | tail h1 h2 ih => exact preInv_stepNR h2 ih

theorem length_step {s s2 : SysState} (h : Step s s2) :
    s2.callers.length = s.callers.length := by
  cases h <;> simp

theorem length_reachNR {s0 s : SysState} (h : ReachNR s0 s) :
    s.callers.length = s0.callers.length := by
  induction h with
  | refl => rfl
  | tail h1 h2 ih => exact (length_step h2.1).trans ih

theorem noneAtStart_step {s s2 : SysState} (h : Step s s2) (hns : noneAtStart s) :
    noneAtStart s2 := by
  cases h with
  | enterDone i hp ht =>
    intro p hm
    rcases List.mem_or_eq_of_mem_set hm with hm2 | he
    · exact hns p hm2
    · subst he; decide
  | enterWait i hp ht hf =>
    intro p hm
    rcases List.mem_or_eq_of_mem_set hm with hm2 | he
    · exact hns p hm2
    · subst he; decide
  | startLogin i hp ht hf =>
    intro p hm
    rcases List.mem_or_eq_of_mem_set hm with hm2 | he
    · exact hns p hm2
    · subst he; decide
  | exitWait i hp hf =>
    intro p hm
    rcases List.mem_or_eq_of_mem_set hm with hm2 | he
    · exact hns p hm2
    · subst he; decide
  | resolve i success hp =>
    intro p hm
    rcases List.mem_or_eq_of_mem_set hm with hm2 | he
    · exact hns p hm2
    · subst he; decide

theorem loginCalls_step_noneAtStart {s s2 : SysState} (h : Step s s2)
    (hns : noneAtStart s) : s2.loginCalls = s.loginCalls := by
  cases h with
  | startLogin i hp ht hf =>
    obtain ⟨hlen, hget⟩ := List.getElem?_eq_some_iff.mp hp
    have hmem := List.getElem_mem hlen
    have := hns _ hmem
    rw [hget] at this
    exact absurd rfl this
  | enterDone i hp ht => rfl
  | enterWait i hp ht hf => rfl
  | exitWait i hp hf => rfl
  | resolve i success hp => rfl

theorem loginCalls_reach_noneAtStart {s s2 : SysState} (h : Reach s s2)
    (hns : noneAtStart s) : s2.loginCalls = s.loginCalls ∧ noneAtStart s2 := by
  induction h with
  | refl => exact ⟨rfl, hns⟩
  | tail h1 h2 ih =>
    exact ⟨(loginCalls_step_noneAtStart h2 ih.2).trans ih.1, noneAtStart_step h2 ih.2⟩

/-- After caller 0 has issued the single login call: flag set, one call,
caller 1 still to arrive. -/
def witState1 : SysState :=
  { token := false, loginInProgress := true, loginCalls := 1,
    callers := [CallerPC.inLogin, CallerPC.start] }

/-- After caller 1 has arrived, observed the flag, and parked. -/
def witState2 : SysState :=
  { token := false, loginInProgress := true, loginCalls := 1,
    callers := [CallerPC.inLogin, CallerPC.waiting] }

/-- After caller 0's login resolved successfully: flag cleared, token set. -/
def witState3 : SysState :=
  { token := true, loginInProgress := false, loginCalls := 1,
    callers := [CallerPC.done, CallerPC.waiting] }

/-- After caller 1 observed the cleared flag and returned. -/
def witState4 : SysState :=
  { token := true, loginInProgress := false, loginCalls := 1,
    callers := [CallerPC.done, CallerPC.done] }

end Sessions

/-- C2: the interleaving semantics of ensureLogin satisfies:
(1) in every state reachable from the initial N-caller state at most one
login network call is in flight; (2) a step issues a login call only when it
observes the flag clear (so a caller that observes loginInProgress = true
never issues its own login) and setting the flag and issuing the call is one
atomic transition; (3) whichever way the login resolves — success or
failure — the very step that completes it clears the flag; (4) a parked
caller leaves the waiting loop only when the flag is clear; (5) for every
interleaving in which all N ≥ 1 callers issue their ensureLogin calls before
any login completes, exactly one login network call is ever made, no matter
how the run continues. -/
theorem c2_single_login_in_flight :
    (∀ (n : Nat) (s : Sessions.SysState),
      Sessions.Reach (Sessions.init n) s → Sessions.inFlight s ≤ 1)
    ∧ (∀ s s2 : Sessions.SysState, Sessions.Step s s2 →
        s2.loginCalls = s.loginCalls
        ∨ (s.loginInProgress = false ∧ s2.loginInProgress = true
            ∧ s2.loginCalls = s.loginCalls + 1))
    ∧ (∀ (s s2 : Sessions.SysState) (i : Nat), Sessions.Step s s2 →
        s.callers[i]? = some Sessions.CallerPC.inLogin →
        s2.callers[i]? = some Sessions.CallerPC.done →
        s2.loginInProgress = false)
    ∧ (∀ (s s2 : Sessions.SysState) (i : Nat), Sessions.Step s s2 →
        s.callers[i]? = some Sessions.CallerPC.waiting →
        s2.callers[i]? ≠ some Sessions.CallerPC.waiting →
        s.loginInProgress = false)
    ∧ (∀ (n : Nat) (s s2 : Sessions.SysState), 1 ≤ n →
        Sessions.ReachNR (Sessions.init n) s → Sessions.noneAtStart s →
        Sessions.Reach s s2 → s2.loginCalls = 1) := by
  refine ⟨?_, ?_, ?_, ?_, ?_⟩
  · intro n s hreach
    have hinv := Sessions.mutexInv_reach hreach (Sessions.mutexInv_init n)
    rw [Sessions.MutexInv] at hinv
    rw [hinv]
    split <;> omega
  · intro s s2 h
    cases h with
    | enterDone i hp ht => exact Or.inl rfl
    | enterWait i hp ht hf => exact Or.inl rfl
    | startLogin i hp ht hf => exact Or.inr ⟨hf, rfl, rfl⟩
    | exitWait i hp hf => exact Or.inl rfl
    | resolve i success hp => exact Or.inl rfl
  · intro s s2 i h h1 h2
    cases h with
    | resolve j success hp => rfl
    | enterDone j hp ht =>
      exfalso
      by_cases hij : j = i
      · subst hij; rw [hp] at h1; exact absurd h1 (by decide)
      · rw [List.getElem?_set_ne hij] at h2
        rw [h1] at h2
        exact absurd h2 (by decide)
    | enterWait j hp ht hf =>
      exfalso
      by_cases hij : j = i
      · subst hij; rw [hp] at h1; exact absurd h1 (by decide)
      · rw [List.getElem?_set_ne hij] at h2
        rw [h1] at h2
        exact absurd h2 (by decide)
    | startLogin j hp ht hf =>
      exfalso
      by_cases hij : j = i
      · subst hij; rw [hp] at h1; exact absurd h1 (by decide)
      · rw [List.getElem?_set_ne hij] at h2
        rw [h1] at h2
        exact absurd h2 (by decide)
    | exitWait j hp hf =>
      exfalso
      by_cases hij : j = i
      · subst hij; rw [hp] at h1; exact absurd h1 (by decide)
      · rw [List.getElem?_set_ne hij] at h2
        rw [h1] at h2
        exact absurd h2 (by decide)
  · intro s s2 i h h1 h2
    cases h with
    | exitWait j hp hf => exact hf
    | resolve j success hp =>
      exfalso
      by_cases hij : j = i
      · subst hij; rw [hp] at h1; exact absurd h1 (by decide)
      · exact h2 (by rw [List.getElem?_set_ne hij]; exact h1)
    | enterDone j hp ht =>
      exfalso
      by_cases hij : j = i
      · subst hij; rw [hp] at h1; exact absurd h1 (by decide)
      · exact h2 (by rw [List.getElem?_set_ne hij]; exact h1)
    | enterWait j hp ht hf =>
      exfalso
      by_cases hij : j = i
      · subst hij; rw [hp] at h1; exact absurd h1 (by decide)
      · exact h2 (by rw [List.getElem?_set_ne hij]; exact h1)
    | startLogin j hp ht hf =>
      exfalso
      by_cases hij : j = i
      · subst hij; rw [hp] at h1; exact absurd h1 (by decide)
      · exact h2 (by rw [List.getElem?_set_ne hij]; exact h1)
  · intro n s s2 hn hreach hns hreach2
    have hpre := Sessions.preInv_reachNR hreach (Sessions.preInv_init n)
    have hlen : s.callers.length = n := by
      have := Sessions.length_reachNR hreach
      simpa [Sessions.init] using this
    rcases hpre.2 with ⟨hf0, hc0, hall⟩ | ⟨hf1, hc1, hnd⟩
    · exfalso
      have hpos : 0 < s.callers.length := by omega
      have hne : s.callers ≠ [] := List.length_pos.mp hpos
      obtain ⟨p, hp⟩ := List.exists_mem_of_ne_nil s.callers hne
      exact hns p hp (hall p hp)
    · have hfrozen := Sessions.loginCalls_reach_noneAtStart hreach2 hns
      rw [hfrozen.1, hc1]

/-- Witness for C2 on the concrete two-caller interleaving in which caller 0
issues the login and caller 1 parks behind the flag before the login
resolves: exactly one login call has been made, and at most one is in
flight. -/
theorem c2_single_login_in_flight_witness :
    Sessions.witState2.loginCalls = 1
    ∧ Sessions.inFlight Sessions.witState2 ≤ 1
    ∧ (Sessions.witState1.loginCalls = (Sessions.init 2).loginCalls
        ∨ ((Sessions.init 2).loginInProgress = false
            ∧ Sessions.witState1.loginInProgress = true
            ∧ Sessions.witState1.loginCalls = (Sessions.init 2).loginCalls + 1))
    ∧ Sessions.witState3.loginInProgress = false
    ∧ ¬Sessions.witState3.loginInProgress = true := by
  have hstep1 : Sessions.Step (Sessions.init 2) Sessions.witState1 :=
    Sessions.Step.startLogin (Sessions.init 2) 0 rfl rfl rfl
  have hstep2 : Sessions.Step Sessions.witState1 Sessions.witState2 :=
    Sessions.Step.enterWait Sessions.witState1 1 rfl rfl rfl
  have hstep3 : Sessions.Step Sessions.witState2 Sessions.witState3 :=
    Sessions.Step.resolve Sessions.witState2 0 true rfl
  have hstep4 : Sessions.Step Sessions.witState3 Sessions.witState4 :=
    Sessions.Step.exitWait Sessions.witState3 1 rfl rfl
  have hnr1 : ∀ i : Nat,
      ¬((Sessions.init 2).callers[i]? = some Sessions.CallerPC.inLogin
        ∧ Sessions.witState1.callers[i]? = some Sessions.CallerPC.done) := by
    intro i h
    match i, h with
    | 0, h => exact absurd h.2 (by decide)
    | 1, h => exact absurd h.2 (by decide)
    | n + 2, h => simp [Sessions.witState1] at h
  have hnr2 : ∀ i : Nat,
      ¬(Sessions.witState1.callers[i]? = some Sessions.CallerPC.inLogin
        ∧ Sessions.witState2.callers[i]? = some Sessions.CallerPC.done) := by
    intro i h
    match i, h with
    | 0, h => exact absurd h.2 (by decide)
    | 1, h => exact absurd h.2 (by decide)
    | n + 2, h => simp [Sessions.witState2] at h
  have hrnr : Sessions.ReachNR (Sessions.init 2) Sessions.witState2 :=
    Relation.ReflTransGen.tail (Relation.ReflTransGen.single ⟨hstep1, hnr1⟩) ⟨hstep2, hnr2⟩
  have hns : Sessions.noneAtStart Sessions.witState2 := by
    intro p hp
    fin_cases hp <;> decide
  have hreach : Sessions.Reach (Sessions.init 2) Sessions.witState2 :=
    Relation.ReflTransGen.tail (Relation.ReflTransGen.single hstep1) hstep2
  have hissue := c2_single_login_in_flight.2.1 (Sessions.init 2) Sessions.witState1 hstep1
  have hclear := c2_single_login_in_flight.2.2.1 Sessions.witState2 Sessions.witState3 0
    hstep3 rfl rfl
  have hpark := c2_single_login_in_flight.2.2.2.1 Sessions.witState3 Sessions.witState4 1
    hstep4 rfl (by decide)
  exact ⟨c2_single_login_in_flight.2.2.2.2 2 Sessions.witState2 Sessions.witState2
      (by omega) hrnr hns Relation.ReflTransGen.refl,
    c2_single_login_in_flight.1 2 Sessions.witState2 hreach,
    hissue, hclear, by simp [hpark]⟩

end SunGrow
